import Mathlib

/-!
Shallow embedding of two flows of the repository:

1. The interactive extension-parameter collection flow (`checkResponse`,
   `askForParam`).  Only the unit tests of this flow are present in the
   repository fragment, so the flow itself is modelled from the spec
   (sections 3, 4.1, 4.3, 6 and 8 of spec.md); every such definition is
   marked `Modelled from the spec:` in its doc comment.  Interactive
   prompts are embedded as scripted response lists, remote secret-store
   clients as oracle functions, and every prompt and remote call issued
   by a run is counted in an explicit trace.

2. The crashlytics issue-list MCP tool handler
   (`src/mcp/tools/crashlytics/list_top_issues.ts`), embedded directly
   from the source: the handler either short-circuits with an error (a
   JavaScript-falsy `app_id`, i.e. absent or the empty string) or
   forwards exactly one remote query with defaults applied via `??=`.
-/

/-- Modelled from the spec: the enumerated parameter kinds of `ParamType`
used by the parameter-collection flow (spec.md section 3). -/
inductive ParamType where
  | STRING
  | SELECT
  | MULTISELECT
  | SECRET
deriving DecidableEq, Repr

/-- Modelled from the spec: where a secret-typed parameter is persisted
(`SecretLocation`, spec.md section 3): the remote secret store, a local
file, or both. -/
inductive SecretLocation where
  | CLOUD
  | LOCAL
deriving DecidableEq, BEq, Repr

/-- Modelled from the spec: a validation pattern carried by a `ParamSpec`.
The textual `source` is what warning messages quote; `accepts` is the
anchored whole-string match of spec.md section 4.1 rule 3 ("the response
(as a whole, anchored) must match it").  Concrete patterns instantiate
`accepts` with a decidable matcher for their regex. -/
structure RegexPattern where
  source : String
  accepts : String → Bool

/-- Modelled from the spec: one entry of a SELECT/MULTISELECT option list,
a value with an optional display label (spec.md section 3). -/
structure ParamOption where
  value : String
  label : Option String := none

/-- Modelled from the spec: the declarative description of one
user-supplied configuration value (`ParamSpec`, spec.md section 3).
`required` is optional and defaults to true; `validationRegex`,
`validationErrorMessage` and `options` are optional. -/
structure ParamSpec where
  param : String
  type : ParamType
  label : String := ""
  default : Option String := none
  validationRegex : Option RegexPattern := none
  validationErrorMessage : Option String := none
  required : Option Bool := none
  options : Option (List ParamOption) := none

/-- Modelled from the spec: the option values a SELECT/MULTISELECT
response is checked against (an absent option list yields no admissible
values). -/
def optionValues (spec : ParamSpec) : List String :=
  (spec.options.getD []).map ParamOption.value

/-- Modelled from the spec: the warning emitted when a required parameter
receives an empty response (spec.md section 4.1 rule 1). -/
def requiredWarning (spec : ParamSpec) : String :=
  "Param " ++ spec.param ++ " is required, but no value was provided."

/-- Modelled from the spec: the default warning emitted when a response
fails the validation pattern and no custom message is configured, naming
the response, the parameter and the pattern (spec.md section 4.1 rule 3). -/
def defaultRegexWarning (response : String) (spec : ParamSpec) (pat : RegexPattern) : String :=
  response ++ " is not a valid value for " ++ spec.param ++
    " since it does not meet the requirements of the regex validation: \"" ++
    pat.source ++ "\""

/-- Modelled from the spec: splitting a character list at commas, the
character-level core of the MULTISELECT tokenizer.  Structural recursion
mirroring JavaScript's split(",") semantics: the empty list yields one
empty token, a comma starts a new token. -/
def splitCommaChars : List Char → List (List Char)
  | [] => [[]]
  | c :: cs =>
    match splitCommaChars cs with
    | [] => [[c]]
    | r :: rs => if c = ',' then [] :: r :: rs else (c :: r) :: rs

/-- Modelled from the spec: splitting a response on commas into its
tokens (spec.md section 4.1 rule 5). -/
def splitOnComma (s : String) : List String :=
  (splitCommaChars s.toList).map List.asString

/-- Modelled from the spec: the choice-list checks of spec.md section 4.1
rules 4 and 5, reached only by a non-empty response that passed the
pattern check.  SELECT requires the response to equal one option value;
MULTISELECT splits the response on commas and requires every token to be
an option value; other types accept. -/
def checkOptions (response : String) (spec : ParamSpec) : Bool × List String :=
  match spec.type with
  | ParamType.SELECT =>
    if (optionValues spec).contains response then (true, [])
    else (false, [response ++ " is not a valid option for " ++ spec.param ++ "."])
  | ParamType.MULTISELECT =>
    if (splitOnComma response).all (fun t => (optionValues spec).contains t) then (true, [])
    else (false, [response ++ " is not a valid option for " ++ spec.param ++ "."])
  | _ => (true, [])

/-- Modelled from the spec: the Response Validator (`checkResponse`,
spec.md section 4.1).  Returns acceptability together with the warnings
emitted through the logging channel (never throws).  Rules in order:
empty response is rejected with the required-warning when the parameter
is required (default true) and accepted unconditionally otherwise; a
present validation pattern must accept the response, rejecting with the
custom `validationErrorMessage` or the default templated message;
finally the SELECT/MULTISELECT option checks run. -/
def checkResponse (response : String) (spec : ParamSpec) : Bool × List String :=
  if response = "" then
    if spec.required.getD true then (false, [requiredWarning spec])
    else (true, [])
  else
    match spec.validationRegex with
    | some pat =>
      if pat.accepts response then checkOptions response spec
      else (false, [spec.validationErrorMessage.getD (defaultRegexWarning response spec pat)])
    | none => checkOptions response spec

/-- Modelled from the spec: a remote `Secret` resource, a name plus the
project it lives in (spec.md section 6, secret store client). -/
structure Secret where
  name : String
  projectId : String
deriving DecidableEq, Repr

/-- Modelled from the spec: a remote `SecretVersion`, the secret it
belongs to plus its version id (spec.md section 6). -/
structure SecretVersion where
  secret : Secret
  versionId : String
deriving DecidableEq, Repr

/-- Modelled from the spec: the value returned for a SECRET parameter
(`SecretReference`, spec.md section 3): `baseValue` is the remote secret
version resource path, empty when the secret is not stored remotely, and
`localValue` embeds the optional `local` field holding the plaintext
value for local storage (`local` is a Lean keyword, hence the rename). -/
structure SecretReference where
  baseValue : String
  localValue : Option String := none
deriving DecidableEq, Repr

/-- Modelled from the spec: the external secret-store client of spec.md
section 6, embedded as pure oracle functions: `secretExists projectId
name`, `createSecret projectId name`, `addVersion secret value`.  The
role grant returns nothing and is represented solely by its call count
in the trace. -/
structure SecretApi where
  secretExists : String → String → Bool
  createSecret : String → String → Secret
  addVersion : Secret → String → SecretVersion

/-- Modelled from the spec: the scripted responses of the prompt provider
(spec.md section 6).  Each prompt kind consumes from its own list; a run
that needs a response from an empty list is an unmodelled (suspended)
run and yields `none`. -/
structure PromptScript where
  confirms : List Bool := []
  checkboxes : List (List SecretLocation) := []
  passwords : List String := []
  inputs : List String := []
  choices : List String := []
  multiChoices : List (List String) := []

/-- Modelled from the spec: counts of the prompts issued and the remote
secret-store calls performed by one `askForParam` run. -/
structure CallTrace where
  confirmPrompts : Nat := 0
  checkboxPrompts : Nat := 0
  passwordPrompts : Nat := 0
  inputPrompts : Nat := 0
  selectPrompts : Nat := 0
  multiselectPrompts : Nat := 0
  secretExistsCalls : Nat := 0
  createSecretCalls : Nat := 0
  addVersionCalls : Nat := 0
  grantRoleCalls : Nat := 0
deriving DecidableEq, Repr

/-- Modelled from the spec: the result of `askForParam`, either a plain
validated string or a `SecretReference` for SECRET parameters. -/
inductive ParamValue where
  | plain (value : String)
  | secretRef (ref : SecretReference)
deriving DecidableEq, Repr

/-- Modelled from the spec: the STRING prompt loop of spec.md section 4.3:
repeatedly present a text prompt and delegate each response to the
Response Validator, terminating only on acceptance.  Returns the accepted
value together with the number of prompts issued; `none` when the script
runs out before any response is accepted (the loop would still be
waiting on the user). -/
def promptStringLoop (spec : ParamSpec) : List String → Option (String × Nat)
  | [] => none
  | r :: rest =>
    if (checkResponse r spec).fst then some (r, 1)
    else
      match promptStringLoop spec rest with
      | some (v, n) => some (v, n + 1)
      | none => none

/-- Modelled from the spec: the SECRET branch of `askForParam` (spec.md
section 4.3): confirm to proceed, then a checkbox prompt for the storage
locations.  When CLOUD is selected: a password prompt for the secret
text, an existence check for (param, projectId), creation if absent, a
version add, and the admin-role grant, with `baseValue` the resource
path built from the ensured secret and the added version's id.  When
LOCAL is selected: a plain-text input prompt whose raw value is stored
under the local field; `baseValue` stays empty unless CLOUD was also
selected.  The decline path of the confirmation is outside the claims
and left unmodelled (`none`). -/
def promptSecret (projectId : String) (spec : ParamSpec) (api : SecretApi)
    (script : PromptScript) : Option (SecretReference × CallTrace) :=
  match script.confirms.head? with
  | none => none
  | some false => none
  | some true =>
    match script.checkboxes.head? with
    | none => none
    | some locations =>
      if locations.contains SecretLocation.CLOUD then
        match script.passwords.head? with
        | none => none
        | some secretValue =>
          let alreadyThere := api.secretExists projectId spec.param
          let secret :=
            if alreadyThere then { name := spec.param, projectId := projectId }
            else api.createSecret projectId spec.param
          let createCalls := if alreadyThere then 0 else 1
          let version := api.addVersion secret secretValue
          let base := "projects/" ++ secret.projectId ++ "/secrets/" ++ secret.name ++
            "/versions/" ++ version.versionId
          if locations.contains SecretLocation.LOCAL then
            match script.inputs.head? with
            | none => none
            | some lv =>
              some ({ baseValue := base, localValue := some lv },
                { confirmPrompts := 1, checkboxPrompts := 1, passwordPrompts := 1,
                  inputPrompts := 1, secretExistsCalls := 1, createSecretCalls := createCalls,
                  addVersionCalls := 1, grantRoleCalls := 1 })
          else
            some ({ baseValue := base, localValue := none },
              { confirmPrompts := 1, checkboxPrompts := 1, passwordPrompts := 1,
                secretExistsCalls := 1, createSecretCalls := createCalls,
                addVersionCalls := 1, grantRoleCalls := 1 })
      else if locations.contains SecretLocation.LOCAL then
        match script.inputs.head? with
        | none => none
        | some lv =>
          some ({ baseValue := "", localValue := some lv },
            { confirmPrompts := 1, checkboxPrompts := 1, inputPrompts := 1 })
      else
        some ({ baseValue := "", localValue := none },
          { confirmPrompts := 1, checkboxPrompts := 1 })

/-- Modelled from the spec: the Parameter Prompt Loop (`askForParam`,
spec.md section 4.3), dispatching on the parameter type.  STRING runs
the re-prompt loop; SELECT/MULTISELECT consume one choice prompt (the
returned value is the option value, comma-joined for MULTISELECT);
SECRET runs the secret flow.  The `reconfiguring` flag's exact skip
condition is an open question of the spec (section 9) and does not
affect the modelled paths. -/
def askForParam (projectId instanceId : String) (spec : ParamSpec)
    (reconfiguring : Bool) (api : SecretApi) (script : PromptScript) :
    Option (ParamValue × CallTrace) :=
  match spec.type with
  | ParamType.STRING =>
    (promptStringLoop spec script.inputs).map
      (fun p => (ParamValue.plain p.1, { inputPrompts := p.2 }))
  | ParamType.SELECT =>
    (script.choices.head?).map
      (fun v => (ParamValue.plain v, { selectPrompts := 1 }))
  | ParamType.MULTISELECT =>
    (script.multiChoices.head?).map
      (fun vs => (ParamValue.plain (String.intercalate "," vs), { multiselectPrompts := 1 }))
  | ParamType.SECRET =>
    (promptSecret projectId spec api script).map
      (fun p => (ParamValue.secretRef p.1, p.2))

/-- Anchored whole-string matcher for the test regex "^[a-z,A-Z]*$": every
character is a letter or a comma (the character class includes the comma
literally). -/
def lettersOnly : RegexPattern :=
  { source := "^[a-z,A-Z]*$",
    accepts := fun s => s.toList.all (fun c => (Char.ofNat 97 ≤ c && c ≤ Char.ofNat 122) ||
      (Char.ofNat 65 ≤ c && c ≤ Char.ofNat 90) || c == Char.ofNat 44) }

/-- Anchored whole-string matcher for the test regex "foo": only the
string "foo" itself matches. -/
def fooRegex : RegexPattern :=
  { source := "foo", accepts := fun s => s == "foo" }

/-- The STRING test spec of the repository's unit tests: param NAME with
the letters-only validation regex. -/
def testSpec : ParamSpec :=
  { param := "NAME", type := ParamType.STRING, label := "Name",
    default := some "Lauren", validationRegex := some lettersOnly }

/-- The SECRET test spec of the repository's unit tests. -/
def secretSpec : ParamSpec :=
  { param := "API_KEY", type := ParamType.SECRET, label := "API Key",
    default := some "XXX.YYY" }

/-- The stubbed secret-store client of the repository's unit tests:
existence check answers false, creation returns the stub secret
new-secret in project firebase-project-123, and the version add returns
version 1.0.0 of the secret it was given. -/
def stubApi : SecretApi :=
  { secretExists := fun _ _ => false,
    createSecret := fun _ _ => { name := "new-secret", projectId := "firebase-project-123" },
    addVersion := fun s _ => { secret := s, versionId := "1.0.0" } }

/-- Embedded from `src/mcp/tools/crashlytics/list_top_issues.ts`: the
issue types admitted by the input schema's enum, with their wire
strings. -/
inductive IssueType where
  | FATAL
  | NONFATAL
  | ANR
deriving DecidableEq, Repr

/-- Wire string of an `IssueType`, as in the zod enum
FATAL / NON-FATAL / ANR. -/
def IssueType.render : IssueType → String
  | IssueType.FATAL => "FATAL"
  | IssueType.NONFATAL => "NON-FATAL"
  | IssueType.ANR => "ANR"

/-- Embedded from `list_top_issues.ts`: the argument tuple of one call to
the remote query `listTopIssues(projectId, app_id, issue_type,
issue_count)`.  JavaScript numbers are embedded as integers, which the
schema's unconstrained `z.number()` admits (including zero and
negatives). -/
structure IssueQueryCall where
  projectId : String
  appId : String
  issueType : String
  issueCount : Int
deriving DecidableEq, Repr

/-- Embedded from `list_top_issues.ts`: the handler's result, either the
`mcpError` envelope with its message or the `toContent` success envelope;
the success payload is the remote response, represented by the call it
answers since the remote client is external. -/
inductive ToolResult where
  | error (message : String)
  | content (call : IssueQueryCall)
deriving DecidableEq, Repr

/-- Embedded from `list_top_issues.ts` lines 37-44: the handler body.
`if (!app_id) return mcpError(...)` — a JavaScript-falsy `app_id`, i.e.
absent or the empty string, short-circuits with the error and no remote
call; otherwise `issue_type ??= "FATAL"` and `issue_count ??= 10` apply
the defaults and exactly one remote query is forwarded.  The second
component lists the remote calls made by the run. -/
def list_top_issues (projectId : String) (app_id : Option String)
    (issue_type : Option IssueType) (issue_count : Option Int) :
    ToolResult × List IssueQueryCall :=
  match app_id with
  | none => (ToolResult.error "Must specify 'app_id' parameter.", [])
  | some appId =>
    if appId = "" then (ToolResult.error "Must specify 'app_id' parameter.", [])
    else
      let call : IssueQueryCall :=
        { projectId := projectId, appId := appId,
          issueType := (issue_type.getD IssueType.FATAL).render,
          issueCount := issue_count.getD 10 }
      (ToolResult.content call, [call])

/-- Shared SELECT test spec: options aaa, bbb, ccc, no validation regex. -/
def selectSpec : ParamSpec :=
  { param := "param", type := ParamType.SELECT, label := "pick one!",
    options := some [{ value := "aaa" }, { value := "bbb" }, { value := "ccc" }] }

/-- Shared MULTISELECT test spec: options aaa, bbb, ccc, no validation
regex. -/
def multiselectSpec : ParamSpec :=
  { param := "param", type := ParamType.MULTISELECT, label := "pick multiple!",
    options := some [{ value := "aaa" }, { value := "bbb" }, { value := "ccc" }] }

/-- A SELECT spec that also carries a validation regex; the regex check
runs before the option-membership check. -/
def selectRegexSpec : ParamSpec :=
  { param := "param", type := ParamType.SELECT, label := "pick one!",
    validationRegex := some fooRegex,
    options := some [{ value := "aaa" }, { value := "bbb" }, { value := "ccc" }] }

/-- C3: for every ParamSpec whose required field is true or absent
(default true), checkResponse on the empty response returns false and
emits exactly the warning "Param {param} is required, but no value was
provided." through the warning channel, without throwing. -/
theorem checkResponse_empty_required (spec : ParamSpec)
    (h : spec.required = none ∨ spec.required = some true) :
    checkResponse "" spec =
      (false, ["Param " ++ spec.param ++ " is required, but no value was provided."]) := by
  rcases h with h | h <;> simp [checkResponse, requiredWarning, h]

/-- C3 witness: the required STRING spec of the unit tests, on the empty
response. -/
theorem checkResponse_empty_required_witness :
    checkResponse ""
      { param := "param", label := "fill in the blank!",
        type := ParamType.STRING, required := some true } =
      (false, ["Param param is required, but no value was provided."]) :=
  checkResponse_empty_required _ (Or.inr rfl)

/-- C4: for every ParamSpec with required=false, checkResponse on the
empty response returns true unconditionally, skipping the regex check
and the SELECT/MULTISELECT option-membership checks. -/
theorem checkResponse_empty_optional (spec : ParamSpec)
    (h : spec.required = some false) :
    checkResponse "" spec = (true, []) := by
  simp [checkResponse, h]

/-- C4 witness: an optional SELECT spec that has both a validation regex
rejecting everything and an option list not containing the empty string,
yet the empty response is accepted. -/
theorem checkResponse_empty_optional_witness :
    checkResponse ""
      { param := "param", label := "fill in the blank!",
        type := ParamType.SELECT, required := some false,
        validationRegex := some fooRegex,
        options := some [{ value := "aaa" }, { value := "bbb" }, { value := "ccc" }] } =
      (true, []) :=
  checkResponse_empty_optional _ rfl

/-- C5: for every ParamSpec with a validation pattern and every non-empty
response the pattern rejects, checkResponse returns false and logs the
custom validationErrorMessage when provided, otherwise the default
message naming the response, the parameter and the pattern; required
plays no role for a non-empty response. -/
theorem checkResponse_regex_mismatch (spec : ParamSpec) (pat : RegexPattern)
    (response : String) (hne : response ≠ "") (hpat : spec.validationRegex = some pat)
    (hfail : pat.accepts response = false) :
    checkResponse response spec =
      (false, [spec.validationErrorMessage.getD (defaultRegexWarning response spec pat)]) := by
  simp [checkResponse, hne, hpat, hfail]

/-- C5 witness: response "123" against the regex "foo", once with the
default templated message (on an optional param) and once with a custom
message. -/
theorem checkResponse_regex_mismatch_witness :
    checkResponse "123"
      { param := "param", label := "fill in the blank!",
        type := ParamType.STRING, validationRegex := some fooRegex,
        required := some false } =
      (false, ["123 is not a valid value for param since it does not meet the requirements of the regex validation: \"foo\""]) ∧
    checkResponse "123"
      { param := "param", label := "fill in the blank!",
        type := ParamType.STRING, validationRegex := some fooRegex,
        validationErrorMessage := some "please enter a word with foo in it",
        required := some true } =
      (false, ["please enter a word with foo in it"]) :=
  ⟨checkResponse_regex_mismatch _ fooRegex "123" (by decide) rfl rfl,
   checkResponse_regex_mismatch _ fooRegex "123" (by decide) rfl rfl⟩

/-- C6 counterexample: the claim quantifies over every SELECT ParamSpec
with options, but when the spec also carries a validation regex the
regex check runs first: response "aaa" equals a configured option value
of selectRegexSpec yet is rejected, refuting the stated iff. -/
theorem checkResponse_select_regex_cex :
    (optionValues selectRegexSpec).contains "aaa" = true ∧
    (checkResponse "aaa" selectRegexSpec).fst = false := by
  exact ⟨rfl, rfl⟩

/-- C6 (amended): for a SELECT ParamSpec with options and no
validationRegex, a non-empty response is accepted iff it equals one
configured option value; for a MULTISELECT ParamSpec with options and no
validationRegex, a non-empty response is accepted iff every token of its
comma-split is a configured option value. -/
theorem checkResponse_choice_membership :
    (∀ (spec : ParamSpec) (response : String), spec.type = ParamType.SELECT →
      response ≠ "" → spec.validationRegex = none →
      ((checkResponse response spec).fst = true ↔
        response ∈ optionValues spec)) ∧
    (∀ (spec : ParamSpec) (response : String), spec.type = ParamType.MULTISELECT →
      response ≠ "" → spec.validationRegex = none →
      ((checkResponse response spec).fst = true ↔
        ∀ t ∈ splitOnComma response, t ∈ optionValues spec)) := by
  constructor
  · intro spec response ht hne hx
    by_cases hmem : response ∈ optionValues spec <;>
      simp [checkResponse, hne, hx, checkOptions, ht, hmem]
  · intro spec response ht hne hx
    by_cases hmem : ∀ t ∈ splitOnComma response, t ∈ optionValues spec
    · simp [checkResponse, hne, hx, checkOptions, ht]
      rw [if_pos hmem]
      simpa using hmem
    · simp [checkResponse, hne, hx, checkOptions, ht, hmem]

/-- C6 witness: with options aaa, bbb, ccc the SELECT response "aaa" and
the MULTISELECT response "aaa,bbb,ccc" are accepted. -/
theorem checkResponse_choice_membership_witness :
    (checkResponse "aaa" selectSpec).fst = true ∧
    (checkResponse "aaa,bbb,ccc" multiselectSpec).fst = true :=
  ⟨(checkResponse_choice_membership.1 selectSpec "aaa" rfl (by decide) rfl).mpr (by decide),
   (checkResponse_choice_membership.2 multiselectSpec "aaa,bbb,ccc" rfl (by decide) rfl).mpr
     (by decide)⟩

/-- Evaluation check: the comma tokenizer agrees with JavaScript split on
the test inputs. -/
example : splitOnComma "aaa,bbb,ccc" = ["aaa", "bbb", "ccc"] := by decide

/-- C8: invoked without an app_id, the handler returns the descriptive
error result and makes no call to the remote issue-query function. -/
theorem list_top_issues_missing_app_id (projectId : String)
    (issue_type : Option IssueType) (issue_count : Option Int) :
    list_top_issues projectId none issue_type issue_count =
      (ToolResult.error "Must specify 'app_id' parameter.", []) := rfl

/-- C10: the handler treats an empty-string app_id exactly like an absent
one: the same descriptive error result and no remote call, even though
the value is present. -/
theorem list_top_issues_empty_app_id (projectId : String)
    (issue_type : Option IssueType) (issue_count : Option Int) :
    list_top_issues projectId (some "") issue_type issue_count =
      (ToolResult.error "Must specify 'app_id' parameter.", []) := rfl

/-- C9 counterexample: the schema's z.number() does not enforce
positivity, so a supplied issue_count of 0 is forwarded as 0, which is
not a positive integer, refuting the claim as stated. -/
theorem list_top_issues_nonpositive_count :
    (list_top_issues "proj" (some "appX") none (some 0)).2 =
      [{ projectId := "proj", appId := "appX", issueType := "FATAL", issueCount := 0 }] ∧
    ¬ (0 < (0 : Int)) :=
  ⟨rfl, by decide⟩

/-- C9 (amended): for every issue-list request the handler forwards, the
forwarded issue_type is the supplied value or FATAL when absent, and the
forwarded issue_count is the supplied value when present, otherwise the
default 10; positivity of a supplied count is not enforced. -/
theorem list_top_issues_forwarded_defaults (projectId appId : String)
    (issue_type : Option IssueType) (issue_count : Option Int) (h : appId ≠ "") :
    (list_top_issues projectId (some appId) issue_type issue_count).2 =
      [{ projectId := projectId, appId := appId,
         issueType := (issue_type.getD IssueType.FATAL).render,
         issueCount := issue_count.getD 10 }] := by
  simp [list_top_issues, h]

/-- C9 witness: app_id supplied with issue_type and issue_count omitted;
the remote call receives FATAL and 10. -/
theorem list_top_issues_forwarded_defaults_witness :
    (list_top_issues "proj" (some "appX") none none).2 =
      [{ projectId := "proj", appId := "appX", issueType := "FATAL", issueCount := 10 }] :=
  list_top_issues_forwarded_defaults _ _ _ _ (by decide)

/-- C2: askForParam for a STRING spec repeatedly prompts and delegates
each response to checkResponse, terminating only when a response is
accepted (any value the loop returns passed checkResponse); in
particular with responses "Invalid123", "InvalidStill123", "ValidName"
against the letters-only regex of testSpec, exactly three input prompts
occur and the accepted value is "ValidName". -/
theorem askForParam_string_reprompts :
    (∀ (spec : ParamSpec) (rs : List String) (v : String) (n : Nat),
      promptStringLoop spec rs = some (v, n) → (checkResponse v spec).fst = true) ∧
    askForParam "project-id" "instance-id" testSpec false stubApi
        { inputs := ["Invalid123", "InvalidStill123", "ValidName"] } =
      some (ParamValue.plain "ValidName", { inputPrompts := 3 }) := by
  constructor
  · intro spec rs
    induction rs with
    | nil => intro v n h; exact absurd h (by simp [promptStringLoop])
    | cons r rest ih =>
      intro v n h
      by_cases hr : (checkResponse r spec).fst = true
      · rw [promptStringLoop, if_pos hr] at h
        have hv : r = v := congrArg Prod.fst (Option.some.inj h)
        exact hv ▸ hr
      · rw [promptStringLoop, if_neg hr] at h
        cases hrec : promptStringLoop spec rest with
        | none => rw [hrec] at h; exact absurd h (by simp)
        | some p =>
          obtain ⟨w, m⟩ := p
          rw [hrec] at h
          have hv : w = v := congrArg Prod.fst (Option.some.inj h)
          exact hv ▸ ih w m hrec
  · rfl

/-- C2 witness: the accepted response "ValidName" satisfies checkResponse
for testSpec, obtained from the loop on the single-response script. -/
theorem askForParam_string_reprompts_witness :
    (checkResponse "ValidName" testSpec).fst = true :=
  askForParam_string_reprompts.1 testSpec ["ValidName"] "ValidName" 1 rfl

/-- C1: for a SECRET spec where the user confirms and selects only the
CLOUD storage location, askForParam issues exactly one checkbox prompt
and one password prompt, performs secretExists (returning false),
createSecret, addVersion and the admin-role grant exactly once each, and
returns a SecretReference whose baseValue is the path
projects/(secret projectId)/secrets/(secret name)/versions/(version id)
built from the created secret and the added version, with no local
field. -/
theorem askForParam_secret_cloud (projectId instanceId pw : String) (spec : ParamSpec)
    (api : SecretApi) (script : PromptScript) (locs : List SecretLocation)
    (htype : spec.type = ParamType.SECRET)
    (hconfirm : script.confirms.head? = some true)
    (hbox : script.checkboxes.head? = some locs)
    (hcloud : locs.contains SecretLocation.CLOUD = true)
    (hlocal : locs.contains SecretLocation.LOCAL = false)
    (hpw : script.passwords.head? = some pw)
    (hexists : api.secretExists projectId spec.param = false) :
    askForParam projectId instanceId spec false api script =
      some (ParamValue.secretRef
        { baseValue := "projects/" ++ (api.createSecret projectId spec.param).projectId ++
            "/secrets/" ++ (api.createSecret projectId spec.param).name ++ "/versions/" ++
            (api.addVersion (api.createSecret projectId spec.param) pw).versionId,
          localValue := none },
        { confirmPrompts := 1, checkboxPrompts := 1, passwordPrompts := 1,
          secretExistsCalls := 1, createSecretCalls := 1, addVersionCalls := 1,
          grantRoleCalls := 1 }) := by
  simp [askForParam, promptSecret, htype, hconfirm, hbox, hcloud, hlocal, hpw, hexists]

/-- C1 witness: the unit tests' stubbed secret store and script (confirm,
checkbox answering CLOUD only, password "ABC.123") yield the resource
path of stub secret new-secret in firebase-project-123 at version 1.0.0,
with each remote call made once and no local field. -/
theorem askForParam_secret_cloud_witness :
    askForParam "project-id" "instance-id" secretSpec false stubApi
        { confirms := [true], checkboxes := [[SecretLocation.CLOUD]],
          passwords := ["ABC.123"] } =
      some (ParamValue.secretRef
        { baseValue := "projects/firebase-project-123/secrets/new-secret/versions/1.0.0",
          localValue := none },
        { confirmPrompts := 1, checkboxPrompts := 1, passwordPrompts := 1,
          secretExistsCalls := 1, createSecretCalls := 1, addVersionCalls := 1,
          grantRoleCalls := 1 }) :=
  askForParam_secret_cloud "project-id" "instance-id" "ABC.123" secretSpec stubApi
    _ _ rfl rfl rfl rfl rfl rfl rfl

/-- C7: for a SECRET spec where the user selects only the LOCAL storage
location, askForParam issues no password prompt and makes no remote
secret-store calls (the trace records zero existence checks, creations,
version adds and role grants), and returns exactly the reference with
empty baseValue and the entered text under the local field. -/
theorem askForParam_secret_local (projectId instanceId lv : String) (spec : ParamSpec)
    (api : SecretApi) (script : PromptScript) (locs : List SecretLocation)
    (htype : spec.type = ParamType.SECRET)
    (hconfirm : script.confirms.head? = some true)
    (hbox : script.checkboxes.head? = some locs)
    (hcloud : locs.contains SecretLocation.CLOUD = false)
    (hlocal : locs.contains SecretLocation.LOCAL = true)
    (hin : script.inputs.head? = some lv) :
    askForParam projectId instanceId spec false api script =
      some (ParamValue.secretRef { baseValue := "", localValue := some lv },
        { confirmPrompts := 1, checkboxPrompts := 1, inputPrompts := 1 }) := by
  simp [askForParam, promptSecret, htype, hconfirm, hbox, hcloud, hlocal, hin]

/-- C7 witness: the unit tests' script (confirm, checkbox answering LOCAL
only, input "ABC.123") yields empty baseValue, local value "ABC.123", no
password prompt, and zero remote calls in the trace. -/
theorem askForParam_secret_local_witness :
    askForParam "project-id" "instance-id" secretSpec false stubApi
        { confirms := [true], checkboxes := [[SecretLocation.LOCAL]],
          inputs := ["ABC.123"] } =
      some (ParamValue.secretRef { baseValue := "", localValue := some "ABC.123" },
        { confirmPrompts := 1, checkboxPrompts := 1, inputPrompts := 1 }) :=
  askForParam_secret_local "project-id" "instance-id" "ABC.123" secretSpec stubApi
    _ _ rfl rfl rfl rfl rfl rfl
